import Mathlib

/-!
# kargo: the Kubernetes ReplicaSet client (`kubernetes.go`)

A shallow embedding of `getLogs`, `getReplicaSet`, `getScale`, `scaleReplicaSet`,
`deleteReplicaSet` and `createReplicaSet`.

Conventions of the embedding

* Go strings and byte buffers are Lean `String`s.
* A Go slice is a Lean `List`; the nil slice and the empty slice are both `[]`
  (`len`, `range` and `append` do not tell them apart).
* A Go map is a reference.  The contents of a map are a `MapData` (an association
  list with unique keys); a map value is a `MapRef`, either nil (`none`) or the
  identity of a map object whose contents live in a `Heap`.  Two fields holding
  the same identity are the same map object.
* The network (`http.DefaultClient.Do`) is a state-passing function `Transport σ`
  over an arbitrary remote state `σ`.  Everything a function does that can be
  observed from outside (requests, log lines, sleeps) is appended to a trace.
* `encoding/json` and `path/filepath` belong to the standard library and are taken
  as a parameter (`Lib`); the iteration order of a `range` over a map is chosen by
  the Go runtime and is taken as a parameter (`MapOrder`).
-/

namespace Kargo

/-! ## Errors -/

/-- Go `error` values met in the file: the package variable `ErrNotExist`, a value
freshly made by `errors.New`, and an error handed back by the standard library
(transport, reader, JSON). -/
inductive Error where
  | ErrNotExist
  | New (msg : String)
  | external (msg : String)
deriving DecidableEq, Repr

/-- The text `err.Error()` that `log.Println(err)` prints. -/
def Error.text : Error → String
  | .ErrNotExist => "does not exist"
  | .New msg => msg
  | .external msg => msg

/-! ## Maps -/

/-- Contents of a Go `map[string]string`: finitely many entries, keys unique. -/
abbrev MapData := AList (fun _ : String => String)

/-- Contents of a possibly nil map (`none` is the nil map). -/
abbrev GoMap := Option MapData

/-- A Go map value: nil, or the identity of a map object. -/
abbrev MapRef := Option Nat

/-- The map objects of the caller, by identity. -/
abbrev Heap := Nat → MapData

/-- Reading through a map value; the nil map reads as `none`. -/
def Heap.read (h : Heap) (r : MapRef) : GoMap := r.map h

/-- The write `m[k] = v` on the map object `a`. -/
def Heap.assign (h : Heap) (a : Nat) (k v : String) : Heap :=
  Function.update h a ((h a).insert k v)

/-- Go `len(m)`; the nil map has length 0. -/
def GoMap.len : GoMap → Nat
  | none => 0
  | some m => m.entries.length

/-! ## HTTP -/

inductive Method where
  | GET | PUT | POST | DELETE
deriving DecidableEq, Repr

structure URL where
  Host : String
  Path : String
  Scheme : String
  RawQuery : String := ""
deriving DecidableEq, Repr

structure Request where
  Body : Option String := none
  ContentLength : Nat := 0
  Header : List (String × String) := []
  Method : Method
  URL : URL
deriving DecidableEq, Repr

/-- A response body is a stream: the bytes it delivers and the error, if any, on
which it ends (`none` is a clean end of stream). -/
structure Body where
  data : String
  err : Option Error := none
deriving DecidableEq, Repr

structure Response where
  StatusCode : Int
  Status : String
  Body : Body
deriving DecidableEq, Repr

/-- What `http.DefaultClient.Do` hands back.  With a nil error the response is
present; with an error the response is normally nil (a non-nil response comes only
with a failed redirect policy). -/
inductive Reply where
  | response (resp : Response)
  | failure (err : Error) (resp : Option Response)
deriving DecidableEq, Repr

/-- The remote side: given its state and a request, a reply and its next state. -/
abbrev Transport (σ : Type) := σ → Request → Reply × σ

inductive Event where
  | request (r : Request)
  | log (line : String)
  | sleep (seconds : Nat)
deriving DecidableEq, Repr

/-- The remote state together with everything observed so far, oldest first. -/
structure World (σ : Type) where
  remote : σ
  trace : List Event

def World.emit {σ : Type} (w : World σ) (e : Event) : World σ :=
  { w with trace := w.trace ++ [e] }

/-- The call `http.DefaultClient.Do(request)`. -/
def send {σ : Type} (T : Transport σ) (w : World σ) (req : Request) : Reply × World σ :=
  ((T w.remote req).1, { remote := (T w.remote req).2, trace := w.trace ++ [.request req] })

/-- The requests of a trace, in order. -/
def requestsOf : List Event → List Request
  | [] => []
  | .request r :: es => r :: requestsOf es
  | _ :: es => requestsOf es

/-! ## Documents

The type declarations of the package are not part of `kubernetes.go`; the fields
below are the ones the functions read and write. -/

/-- Modelled from the spec: the declaration of `ScaleSpec` is missing; the code
writes `Spec.Replicas` with an `int64`. -/
structure ScaleSpec where
  Replicas : Int
deriving DecidableEq, Repr

/-- Modelled from the spec: the declaration of `Scale` is missing; the scale
document is an identity plus the desired replica count. -/
structure Scale where
  ApiVersion : String
  Kind : String
  Name : String
  Spec : ScaleSpec
deriving DecidableEq, Repr

/-- Modelled from the spec: the declaration of `VolumeSource` is missing; the code
only writes its zero value. -/
structure VolumeSource where
deriving DecidableEq, Repr

/-- Modelled from the spec: the declaration of `Volume` is missing. -/
structure Volume where
  Name : String
  VolumeSource : VolumeSource
deriving DecidableEq, Repr

/-- Modelled from the spec: the declaration of `VolumeMount` is missing. -/
structure VolumeMount where
  Name : String
  MountPath : String
deriving DecidableEq, Repr

/-- Modelled from the spec: the declaration of `EnvVar` is missing. -/
structure EnvVar where
  Name : String
  Value : String
deriving DecidableEq, Repr

/-- Modelled from the spec: the declaration of the resource block is missing; both
fields are of the map type `ResourceList` and start out nil. -/
structure ResourceRequirements where
  Limits : GoMap := none
  Requests : GoMap := none
deriving DecidableEq

/-- Modelled from the spec: the declaration of `Container` is missing. -/
structure Container where
  Args : List String := []
  Command : List String := []
  Env : List EnvVar := []
  Image : String := ""
  Name : String := ""
  Resources : ResourceRequirements := {}
  VolumeMounts : List VolumeMount := []
deriving DecidableEq

/-- Modelled from the spec: the declaration of `Metadata` is missing.  The two maps
are recorded by their contents at the time the document is encoded. -/
structure Metadata where
  Name : String := ""
  Labels : GoMap := none
  Annotations : GoMap := none
deriving DecidableEq

/-- Modelled from the spec: the declaration of `PodSpec` is missing. -/
structure PodSpec where
  Containers : List Container
  Volumes : List Volume
deriving DecidableEq

/-- Modelled from the spec: the declaration of `PodTemplate` is missing. -/
structure PodTemplate where
  Metadata : Metadata
  Spec : PodSpec
deriving DecidableEq

/-- Modelled from the spec: the declaration of `ReplicaSetSpec` is missing. -/
structure ReplicaSetSpec where
  Replicas : Int
  Template : PodTemplate
deriving DecidableEq

/-- Modelled from the spec: the declaration of `ReplicaSet` is missing. -/
structure ReplicaSet where
  ApiVersion : String
  Kind : String
  Metadata : Metadata
  Spec : ReplicaSetSpec
deriving DecidableEq

/-- Modelled from the spec: the declaration of `DeploymentConfig` is missing.  The
three maps are map values of the caller; `Replicas` is a Go `int`. -/
structure DeploymentConfig where
  Args : List String
  Annotations : MapRef
  BinaryURL : String
  Env : MapRef
  Labels : MapRef
  Name : String
  Replicas : Int
  cpuLimit : String
  cpuRequest : String
  memoryLimit : String
  memoryRequest : String
deriving DecidableEq, Repr

/-! ## The standard library, as used by the file -/

/-- The functions of `encoding/json` and `path/filepath` that the file calls.
A decoder reads a response body into the zero value of the document; an encoder
yields the bytes it writes. -/
structure Lib where
  decodeReplicaSet : Body → Except Error ReplicaSet
  decodeScale : Body → Except Error Scale
  encodeScale : Scale → Except Error String
  encodeReplicaSet : ReplicaSet → Except Error String
  marshalIndent : List Container → Except Error String
  filepathJoin : String → String → String

/-- The Go conversion `int64(x)`: the value reduced into the 64-bit signed range. -/
def int64 (x : Int) : Int := (x + 2 ^ 63) % 2 ^ 64 - 2 ^ 63

/-! ## Package variables -/

def apiHost : String := "127.0.0.1:8001"

def replicasetsEndpoint : String :=
  "/apis/extensions/v1beta1/namespaces/default/replicasets"

/-- The instance of `fmt.Sprintf(logsEndpoint, namespace, name)`. -/
def logsPath (ns name : String) : String :=
  "/api/v1/namespaces/" ++ ns ++ "/pods/" ++ name ++ "/log"

/-! ## getReplicaSet, getScale -/

def getReplicaSetRequest (name : String) : Request :=
  { Header := [("Accept", "application/json, */*")]
    Method := .GET
    URL := { Host := apiHost, Path := replicasetsEndpoint ++ "/" ++ name, Scheme := "http" } }

def getReplicaSet {σ : Type} (L : Lib) (T : Transport σ) (name : String) (w : World σ) :
    Except Error ReplicaSet × World σ :=
  match send T w (getReplicaSetRequest name) with
  | (.failure err _, w1) => (.error err, w1)
  | (.response resp, w1) =>
    if resp.StatusCode = 404 then (.error .ErrNotExist, w1)
    else if resp.StatusCode ≠ 200 then
      (.error (.New ("Get deployment error non 200 reponse: " ++ resp.Status)), w1)
    else
      match L.decodeReplicaSet resp.Body with
      | .error err => (.error err, w1)
      | .ok rs => (.ok rs, w1)

def scalePath (name : String) : String :=
  replicasetsEndpoint ++ "/" ++ name ++ "/scale"

def getScaleRequest (name : String) : Request :=
  { Header := [("Accept", "application/json, */*")]
    Method := .GET
    URL := { Host := apiHost, Path := scalePath name, Scheme := "http" } }

def getScale {σ : Type} (L : Lib) (T : Transport σ) (name : String) (w : World σ) :
    Except Error Scale × World σ :=
  match send T w (getScaleRequest name) with
  | (.failure err _, w1) => (.error err, w1)
  | (.response resp, w1) =>
    if resp.StatusCode = 404 then (.error .ErrNotExist, w1)
    else if resp.StatusCode ≠ 200 then
      (.error (.New ("Get scale error non 200 reponse: " ++ resp.Status)), w1)
    else
      match L.decodeScale resp.Body with
      | .error err => (.error err, w1)
      | .ok scale => (.ok scale, w1)

/-! ## scaleReplicaSet, deleteReplicaSet -/

def putScaleRequest (name body : String) : Request :=
  { Body := some body
    ContentLength := body.utf8ByteSize
    Header := [("Content-Type", "application/json")]
    Method := .PUT
    URL := { Host := apiHost, Path := scalePath name, Scheme := "http" } }

/-- The result is the returned `error`; `none` is nil. -/
def scaleReplicaSet {σ : Type} (L : Lib) (T : Transport σ) (name : String) (replicas : Int)
    (w : World σ) : Option Error × World σ :=
  match getScale L T name w with
  | (.error err, w1) => (some err, w1)
  | (.ok scale, w1) =>
    let scale := { scale with Spec := { scale.Spec with Replicas := int64 replicas } }
    match L.encodeScale scale with
    | .error err => (some err, w1)
    | .ok body =>
      match send T w1 (putScaleRequest name body) with
      | (.failure err _, w2) => (some err, w2)
      | (.response resp, w2) =>
        if resp.StatusCode = 404 then (some .ErrNotExist, w2)
        else if resp.StatusCode ≠ 200 then
          match resp.Body.err with
          | some err => (some err, w2)
          | none =>
            (some (.New ("Scale ReplicaSet error non 200 reponse: " ++ resp.Status)),
              w2.emit (.log resp.Body.data))
        else (none, w2)

def deleteRequest (name : String) : Request :=
  { Header := [("Accept", "application/json, */*")]
    Method := .DELETE
    URL := { Host := apiHost, Path := replicasetsEndpoint ++ "/" ++ name, Scheme := "http" } }

def deleteReplicaSet {σ : Type} (L : Lib) (T : Transport σ) (name : String) (w : World σ) :
    Option Error × World σ :=
  match scaleReplicaSet L T name 0 w with
  | (some err, w1) => (some err, w1)
  | (none, w1) =>
    match send T w1 (deleteRequest name) with
    | (.failure err _, w2) => (some err, w2)
    | (.response resp, w2) =>
      if resp.StatusCode = 404 then (some .ErrNotExist, w2)
      else if resp.StatusCode ≠ 200 then
        (some (.New ("Delete ReplicaSet error non 200 reponse: " ++ resp.Status)), w2)
      else (none, w2)

/-! ## createReplicaSet -/

/-- The order in which one `range` loop visits the entries of a map.  The Go
runtime chooses it; all that is fixed is that every entry is visited once. -/
structure MapOrder where
  order : MapData → List (Sigma fun _ : String => String)
  perm : ∀ m, (order m).Perm m.entries

/-- How a Go function ends: it returns normally (`ok`), returns a non-nil `error`
(`err`), or panics. -/
inductive Outcome (α : Type) where
  | ok (a : α)
  | err (e : Error)
  | panic (msg : String)
deriving DecidableEq

/-- The local `volumeMounts`. -/
def volumeMounts : List VolumeMount :=
  [] ++ [{ Name := "bin", MountPath := "/opt/bin" }]

/-- The local `volumes`. -/
def volumes : List Volume :=
  [] ++ [{ Name := "bin", VolumeSource := {} }]

/-- The local `resourceLimits` after its two conditional writes. -/
def resourceLimits (config : DeploymentConfig) : MapData :=
  let resourceLimits : MapData := ∅
  let resourceLimits :=
    if config.cpuLimit ≠ "" then resourceLimits.insert "cpu" config.cpuLimit else resourceLimits
  if config.memoryLimit ≠ "" then resourceLimits.insert "memory" config.memoryLimit
  else resourceLimits

/-- The local `resourceRequests` after its two conditional writes. -/
def resourceRequests (config : DeploymentConfig) : MapData :=
  let resourceRequests : MapData := ∅
  let resourceRequests :=
    if config.cpuRequest ≠ "" then resourceRequests.insert "cpu" config.cpuRequest
    else resourceRequests
  if config.memoryRequest ≠ "" then resourceRequests.insert "memory" config.memoryRequest
  else resourceRequests

/-- The local `env`: one `EnvVar` appended for each entry that the `range` over
`config.Env` visits. -/
def envOf (O : MapOrder) (h : Heap) (config : DeploymentConfig) : List EnvVar :=
  match h.read config.Env with
  | some m => [] ++ (O.order m).map (fun e => { Name := e.1, Value := e.2 })
  | none => []

/-- The local `container` once the resource and environment blocks are filled in.
A field that the code assigns only under a condition keeps its zero value (the nil
map, the nil slice) otherwise. -/
def mainContainer (L : Lib) (O : MapOrder) (h : Heap) (config : DeploymentConfig) : Container :=
  { Args := config.Args
    Command := [L.filepathJoin "/opt/bin" config.Name]
    Image := "gcr.io/hightowerlabs/alpine"
    Name := config.Name
    VolumeMounts := volumeMounts
    Resources :=
      { Limits :=
          if GoMap.len (some (resourceLimits config)) > 0 then some (resourceLimits config)
          else none
        Requests :=
          if GoMap.len (some (resourceRequests config)) > 0 then some (resourceRequests config)
          else none }
    Env := if GoMap.len (h.read config.Env) > 0 then envOf O h config else [] }

/-- The local `initContainers`. -/
def initContainers (L : Lib) (config : DeploymentConfig) : List Container :=
  let binaryPath := L.filepathJoin "/opt/bin" config.Name
  [ { Name := "install"
      Image := "gcr.io/hightowerlabs/alpine"
      Command := ["wget", "-O", binaryPath, config.BinaryURL]
      VolumeMounts := [{ Name := "bin", MountPath := "/opt/bin" }] },
    { Name := "configure"
      Image := "gcr.io/hightowerlabs/alpine"
      Command := ["chmod", "+x", binaryPath]
      VolumeMounts := [{ Name := "bin", MountPath := "/opt/bin" }] } ]

def initContainersKey : String := "pod.alpha.kubernetes.io/init-containers"

/-- The first part of `createReplicaSet`, up to and including the composite literal
`rs`: the document, and the caller's maps as the function leaves them.  A write to
an entry of a nil map panics. -/
def buildReplicaSet (L : Lib) (O : MapOrder) (h : Heap) (config : DeploymentConfig) :
    Outcome ReplicaSet × Heap :=
  let container := mainContainer L O h config
  let annotations := config.Annotations
  match L.marshalIndent (initContainers L config) with
  | .error err => (.err err, h)
  | .ok ic =>
    match annotations with
    | none => (.panic "assignment to entry in nil map", h)
    | some a =>
      let h1 := h.assign a initContainersKey ic
      match config.Labels with
      | none => (.panic "assignment to entry in nil map", h1)
      | some l =>
        let h2 := h1.assign l "run" config.Name
        ( .ok
            { ApiVersion := "extensions/v1beta1"
              Kind := "ReplicaSet"
              Metadata := { Name := config.Name }
              Spec :=
                { Replicas := int64 config.Replicas
                  Template :=
                    { Metadata :=
                        { Labels := h2.read config.Labels
                          Annotations := h2.read annotations }
                      Spec := { Containers := [container], Volumes := volumes } } } },
          h2 )

def postRequest (body : String) : Request :=
  { Body := some body
    ContentLength := body.utf8ByteSize
    Header := [("Content-Type", "application/json")]
    Method := .POST
    URL := { Host := apiHost, Path := replicasetsEndpoint, Scheme := "http" } }

/-- The whole of `createReplicaSet`: `ok ()` is a nil `error`. -/
def createReplicaSet {σ : Type} (L : Lib) (O : MapOrder) (T : Transport σ) (h : Heap)
    (config : DeploymentConfig) (w : World σ) : (Outcome Unit × Heap) × World σ :=
  match buildReplicaSet L O h config with
  | (.panic msg, h1) => ((.panic msg, h1), w)
  | (.err err, h1) => ((.err err, h1), w)
  | (.ok rs, h1) =>
    match L.encodeReplicaSet rs with
    | .error err => ((.err err, h1), w)
    | .ok body =>
      match send T w (postRequest body) with
      | (.failure err _, w1) => ((.err err, h1), w1)
      | (.response resp, w1) =>
        if resp.StatusCode ≠ 201 then
          match resp.Body.err with
          | some err => ((.err err, h1), w1)
          | none =>
            ((.err (.New ("ReplicaSet: Unexpected HTTP status code" ++ resp.Status)), h1),
              w1.emit (.log resp.Body.data))
        else ((.ok (), h1), w1)

/-! ## getLogs

`getLogs` builds one request, starts the loop below in a goroutine and returns the
buffer `b` at once.  The loop is modelled by its state after each pass. -/

def getLogsRequest (name ns : String) : Request :=
  { Header := [("Accept", "application/json, */*")]
    Method := .GET
    URL := { Host := apiHost, Path := logsPath ns name, Scheme := "http",
             RawQuery := "follow=true" } }

/-- The goroutine of `getLogs`: the world, the buffer `b`, and whether the
goroutine has panicked (which ends the loop and the process). -/
structure Follower (σ : Type) where
  world : World σ
  b : String
  panicked : Bool

/-- One pass through the body of the `for` loop. -/
def logsPass {σ : Type} (T : Transport σ) (request : Request) (s : Follower σ) : Follower σ :=
  match send T s.world request with
  | (reply, w1) =>
    -- if err != nil { time.Sleep(10 * time.Second); log.Println(err) }
    let w2 :=
      match reply with
      | .failure err _ => (w1.emit (.sleep 10)).emit (.log err.text)
      | .response _ => w1
    let resp : Option Response :=
      match reply with
      | .failure _ r => r
      | .response r => some r
    -- resp.StatusCode on a nil resp is a nil pointer dereference
    match resp with
    | none => { world := w2, b := s.b, panicked := true }
    | some resp =>
      let w3 := if resp.StatusCode = 404 then w2.emit (.log Error.ErrNotExist.text) else w2
      let w4 :=
        if resp.StatusCode ≠ 200 then
          w3.emit (.log ("Get deployment error non 200 reponse: " ++ resp.Status))
        else w3
      let w5 :=
        match resp.Body.err with
        | some err => w4.emit (.log err.text)
        | none => w4
      { world := w5, b := s.b ++ resp.Body.data, panicked := false }

/-- At most `n` passes of the `for` loop; a panic stops it. -/
def logsLoop {σ : Type} (T : Transport σ) (request : Request) : Nat → Follower σ → Follower σ
  | 0, s => s
  | n + 1, s =>
    if s.panicked then s else logsLoop T request n (logsPass T request s)

/-- The function `getLogs`, observed after at most `n` passes of its goroutine: the
buffer starts out empty and the loop runs on the one request built beforehand. -/
def getLogs {σ : Type} (T : Transport σ) (name ns : String) (n : Nat) (w : World σ) :
    Follower σ :=
  logsLoop T (getLogsRequest name ns) n { world := w, b := "", panicked := false }

/-! ## Remotes used in the statements -/

/-- A fake remote, as the testable properties describe it: an in-memory store
keyed by URL path, with no other writer.  `GET` returns the stored body with status
200 (404 when nothing is stored), `PUT` stores the submitted body and returns 200. -/
def memoryStore : Transport (String → Option String) := fun store req =>
  match req.Method with
  | .GET =>
    match store req.URL.Path with
    | some doc => (.response { StatusCode := 200, Status := "200 OK", Body := { data := doc } }, store)
    | none =>
      (.response { StatusCode := 404, Status := "404 Not Found", Body := { data := "" } }, store)
  | .PUT =>
    (.response { StatusCode := 200, Status := "200 OK", Body := { data := req.Body.getD "" } },
      Function.update store req.URL.Path (some (req.Body.getD "")))
  | _ =>
    (.response { StatusCode := 405, Status := "405 Method Not Allowed", Body := { data := "" } },
      store)

/-- A fake remote that plays back a fixed list of replies, one for each request,
and answers 404 once the list is used up. -/
def scripted : Transport (List Reply) := fun script _ =>
  match script with
  | [] => (.response { StatusCode := 404, Status := "404 Not Found", Body := { data := "" } }, [])
  | r :: rest => (r, rest)

/-! ## Sample parameters

Small concrete instances of the parameters, on which the statements below are
evaluated. -/

/-- A replica count written in unary, with a leading `-` for a negative one. -/
def unary : Int → String
  | .ofNat n => ⟨List.replicate n '1'⟩
  | .negSucc n => ⟨'-' :: List.replicate n '1'⟩

def readUnary (s : String) : Int :=
  match s.data with
  | '-' :: rest => Int.negSucc rest.length
  | cs => Int.ofNat cs.length

/-- A stand-in for the standard library: the scale document is encoded as its
replica count, a container list as the names in it, and a path is joined with a
single separator. -/
def sampleLib : Lib where
  decodeReplicaSet := fun body =>
    match body.err with
    | some err => .error err
    | none =>
      .ok { ApiVersion := "extensions/v1beta1", Kind := "ReplicaSet",
            Metadata := { Name := body.data },
            Spec := { Replicas := 0,
                      Template := { Metadata := {}, Spec := { Containers := [], Volumes := [] } } } }
  decodeScale := fun body =>
    match body.err with
    | some err => .error err
    | none => .ok { ApiVersion := "", Kind := "", Name := "", Spec := { Replicas := readUnary body.data } }
  encodeScale := fun scale => .ok (unary scale.Spec.Replicas)
  encodeReplicaSet := fun rs => .ok rs.Metadata.Name
  marshalIndent := fun cs => .ok (String.intercalate "," (cs.map (fun c => c.Name)))
  filepathJoin := fun dir name => if name = "" then dir else dir ++ "/" ++ name

/-- The runtime visits the entries in the order they are stored. -/
def storedOrder : MapOrder where
  order := fun m => m.entries
  perm := fun _ => List.Perm.refl _

/-- The runtime visits the entries in the opposite order. -/
def reverseOrder : MapOrder where
  order := fun m => m.entries.reverse
  perm := fun m => List.reverse_perm m.entries

/-- A heap in which every map object is empty. -/
def emptyHeap : Heap := fun _ => ∅

/-- A request for three replicas of `worker`, with `Labels` the map object 0 and
`Annotations` the map object 1. -/
def sampleConfig : DeploymentConfig :=
  { Args := ["-v"], Annotations := some 1, BinaryURL := "https://x/worker", Env := none,
    Labels := some 0, Name := "worker", Replicas := 3, cpuLimit := "", cpuRequest := "",
    memoryLimit := "", memoryRequest := "" }

/-- A remote whose single scripted reply is a 500. -/
def failingScale : World (List Reply) :=
  { remote := [.response { StatusCode := 500, Status := "500 Internal Server Error",
                           Body := { data := "boom" } }],
    trace := [] }

/-- A store holding the scale document of `web`, at two replicas. -/
def webStore : String → Option String := fun path =>
  if path = scalePath "web" then some "11" else none

/-- A remote whose single scripted reply has the given status and carries the
two-replica scale document. -/
def answering (code : Int) (status : String) : World (List Reply) :=
  { remote := [.response { StatusCode := code, Status := status, Body := { data := "11" } }],
    trace := [] }

/-- The error of a refused connection. -/
def refused : Error := .external "dial tcp 127.0.0.1:8001: connect: connection refused"

/-- A remote that fails at the transport level twice, with a nil response, and
then answers 200 with one line of log. -/
def flakyLogs : World (List Reply) :=
  { remote := [.failure refused none, .failure refused none,
               .response { StatusCode := 200, Status := "200 OK", Body := { data := "line 1\n" } }],
    trace := [] }

/-- The sample request with a nil `Labels` map. -/
def nilLabelsConfig : DeploymentConfig := { sampleConfig with Labels := none }

/-- The sample request with one map object given as both `Labels` and
`Annotations`. -/
def sharedMapConfig : DeploymentConfig := { sampleConfig with Annotations := some 0 }

/-- A heap whose map object 0 holds the single entry `app = web`. -/
def appHeap : Heap := fun a => if a = 0 then AList.singleton "app" "web" else ∅

/-- A heap whose map object 2 holds the entries `A = 1` and `B = 2`. -/
def envHeap : Heap := fun a =>
  if a = 2 then (AList.singleton "A" "1").insert "B" "2" else ∅

/-- The sample request with the map object 2 as `Env`. -/
def envConfig : DeploymentConfig := { sampleConfig with Env := some 2 }

/-- A fake remote that looks at the document it is sent: it answers 201 to a `POST`
whose body is `worker` and 422 to every other request. -/
def validating : Transport Unit := fun store req =>
  if req.Method = .POST ∧ req.Body = some "worker" then
    (.response { StatusCode := 201, Status := "201 Created", Body := { data := "" } }, store)
  else
    (.response { StatusCode := 422, Status := "422 Unprocessable Entity",
                 Body := { data := "" } }, store)

/-! ## Properties of the JSON functions that the statements assume -/

/-- The remote behaviours in which the scale step `scaleReplicaSet(name, replicas)`
fails: `getScale` fails, or the document cannot be encoded, or the `PUT` gets a
transport error, or it gets a status other than 200 (a 404 among them). -/
def scaleStepFails {σ : Type} (L : Lib) (T : Transport σ) (name : String) (replicas : Int)
    (w : World σ) : Bool :=
  match getScale L T name w with
  | (.error _, _) => true
  | (.ok scale, w1) =>
    match L.encodeScale { scale with Spec := { scale.Spec with Replicas := int64 replicas } } with
    | .error _ => true
    | .ok body =>
      match (send T w1 (putScaleRequest name body)).1 with
      | .failure _ _ => true
      | .response resp => decide (resp.StatusCode ≠ 200)

/-- Encoding a scale document and decoding the bytes again keeps the replica
count. -/
def Lib.ScaleRoundTrips (L : Lib) : Prop :=
  ∀ d : Scale, ∃ body d', L.encodeScale d = .ok body ∧
    L.decodeScale { data := body } = .ok d' ∧ d'.Spec.Replicas = d.Spec.Replicas

/-- The encoders never fail on a document built by `createReplicaSet`. -/
def Lib.Encodes (L : Lib) : Prop :=
  (∀ cs, ∃ ic, L.marshalIndent cs = .ok ic) ∧ (∀ rs, ∃ body, L.encodeReplicaSet rs = .ok body)

/-! ## Lemmas -/

theorem readUnary_unary (i : Int) : readUnary (unary i) = i := by
  cases i with
  | ofNat n =>
    cases n with
    | zero => rfl
    | succ k => simp [unary, readUnary, List.replicate_succ]
  | negSucc n => simp [unary, readUnary]

theorem sampleLib_scaleRoundTrips : sampleLib.ScaleRoundTrips := by
  intro d
  exact ⟨unary d.Spec.Replicas, _, rfl, rfl, readUnary_unary _⟩

theorem sampleLib_encodes : sampleLib.Encodes := ⟨fun _ => ⟨_, rfl⟩, fun _ => ⟨_, rfl⟩⟩

theorem int64_of_range (n : Int) (h : -2 ^ 63 ≤ n ∧ n < 2 ^ 63) : int64 n = n := by
  unfold int64
  omega

theorem requestsOf_append (a b : List Event) :
    requestsOf (a ++ b) = requestsOf a ++ requestsOf b := by
  induction a with
  | nil => rfl
  | cons e es ih => cases e <;> simp [requestsOf, ih]

theorem send_trace {σ : Type} (T : Transport σ) (w : World σ) (req : Request) :
    (send T w req).2.trace = w.trace ++ [.request req] := rfl

theorem getScale_world {σ : Type} (L : Lib) (T : Transport σ) (name : String) (w : World σ) :
    (getScale L T name w).2 = (send T w (getScaleRequest name)).2 := by
  unfold getScale
  split
  · next h => simp [h]
  · next h =>
    simp only [h]
    split_ifs
    · rfl
    · rfl
    · split <;> rfl

/-- Whatever happens, `scaleReplicaSet` only appends to the trace, and what it
appends holds no `DELETE` request. -/
theorem scaleReplicaSet_trace {σ : Type} (L : Lib) (T : Transport σ) (name : String)
    (replicas : Int) (w : World σ) :
    ∃ new, (scaleReplicaSet L T name replicas w).2.trace = w.trace ++ new ∧
      ∀ r ∈ requestsOf new, r.Method = .GET ∨ r.Method = .PUT := by
  have hg := getScale_world L T name w
  have h1 : ∀ r ∈ requestsOf [Event.request (getScaleRequest name)],
      r.Method = .GET ∨ r.Method = .PUT := by
    intro r hr
    simp [requestsOf] at hr
    subst hr
    exact Or.inl rfl
  unfold scaleReplicaSet
  split
  · next err w1 h =>
    have : w1 = (getScale L T name w).2 := by rw [h]
    refine ⟨[.request (getScaleRequest name)], ?_, h1⟩
    rw [this, hg]; rfl
  · next scale w1 h =>
    have hw1 : w1.trace = w.trace ++ [.request (getScaleRequest name)] := by
      have : w1 = (getScale L T name w).2 := by rw [h]
      rw [this, hg]; rfl
    have h2 : ∀ body, ∀ r ∈ requestsOf [Event.request (getScaleRequest name),
        Event.request (putScaleRequest name body)], r.Method = .GET ∨ r.Method = .PUT := by
      intro body r hr
      simp [requestsOf] at hr
      rcases hr with hr | hr <;> subst hr
      · exact Or.inl rfl
      · exact Or.inr rfl
    have h3 : ∀ body line, ∀ r ∈ requestsOf [Event.request (getScaleRequest name),
        Event.request (putScaleRequest name body), Event.log line],
        r.Method = .GET ∨ r.Method = .PUT := by
      intro body line r hr
      simp [requestsOf] at hr
      rcases hr with hr | hr <;> subst hr
      · exact Or.inl rfl
      · exact Or.inr rfl
    simp only []
    split
    · exact ⟨_, hw1, h1⟩
    · next body hb =>
      split
      · next err r w2 hs =>
        have : w2 = (send T w1 (putScaleRequest name body)).2 := by rw [hs]
        refine ⟨_, ?_, h2 body⟩
        rw [this, send_trace, hw1]; simp
      · next resp w2 hs =>
        have hw2 : w2.trace = w.trace ++ [.request (getScaleRequest name),
            .request (putScaleRequest name body)] := by
          have : w2 = (send T w1 (putScaleRequest name body)).2 := by rw [hs]
          rw [this, send_trace, hw1]; simp
        split_ifs
        · exact ⟨_, hw2, h2 body⟩
        · split
          · exact ⟨_, hw2, h2 body⟩
          · refine ⟨_, ?_, h3 body resp.Body.data⟩
            simp [World.emit, hw2]
        · exact ⟨_, hw2, h2 body⟩

/-! ## Theorems -/

/-- In each of the behaviours of `scaleStepFails`, `scaleReplicaSet` returns a
non-nil error. -/
theorem scaleReplicaSet_error_of_fails {σ : Type} (L : Lib) (T : Transport σ) (name : String)
    (replicas : Int) (w : World σ) (hfail : scaleStepFails L T name replicas w = true) :
    ∃ e, (scaleReplicaSet L T name replicas w).1 = some e := by
  unfold scaleStepFails at hfail
  unfold scaleReplicaSet
  rcases hg : getScale L T name w with ⟨r, w1⟩
  rw [hg] at hfail
  cases r with
  | error err => exact ⟨err, rfl⟩
  | ok scale =>
    simp only [] at hfail ⊢
    cases he : L.encodeScale
        { scale with Spec := { scale.Spec with Replicas := int64 replicas } } with
    | error err => exact ⟨err, rfl⟩
    | ok body =>
      rw [he] at hfail
      simp only [] at hfail ⊢
      rcases hs : send T w1 (putScaleRequest name body) with ⟨reply, w2⟩
      rw [hs] at hfail
      cases reply with
      | failure err r => exact ⟨err, rfl⟩
      | response resp =>
        simp only [decide_eq_true_eq] at hfail
        simp only []
        by_cases h404 : resp.StatusCode = 404
        · exact ⟨.ErrNotExist, by simp [h404]⟩
        · simp only [h404, if_false, hfail, ne_eq, not_false_eq_true, if_true]
          cases resp.Body.err with
          | some err => exact ⟨err, rfl⟩
          | none => exact ⟨_, rfl⟩

/-- An error of `scaleReplicaSet(name, 0)` is what `deleteReplicaSet` returns, and
`deleteReplicaSet` then does nothing after the scale step. -/
theorem deleteReplicaSet_of_scale_error {σ : Type} (L : Lib) (T : Transport σ) (name : String)
    (w : World σ) (e : Error) (hfail : (scaleReplicaSet L T name 0 w).1 = some e) :
    deleteReplicaSet L T name w = (some e, (scaleReplicaSet L T name 0 w).2) := by
  unfold deleteReplicaSet
  split
  · next err w1 h =>
    rw [h] at hfail
    simp only [Option.some.injEq] at hfail
    rw [h, hfail]
  · next w1 h =>
    rw [h] at hfail
    simp at hfail

/-- C1: for every workload name and every remote behaviour in which the
scale-to-zero step fails (`getScale` fails, the encoder fails, the `PUT` gets a
transport error, a 404 or any other non-200 status), the step returns an error,
`deleteReplicaSet` returns that same error, and what `deleteReplicaSet` adds to
the trace holds no request with method `DELETE`. -/
theorem deleteReplicaSet_scale_failure {σ : Type} (L : Lib) (T : Transport σ) (name : String)
    (w : World σ) (hfail : scaleStepFails L T name 0 w = true) :
    ∃ e, (scaleReplicaSet L T name 0 w).1 = some e ∧
      (deleteReplicaSet L T name w).1 = some e ∧
      ∃ new, (deleteReplicaSet L T name w).2.trace = w.trace ++ new ∧
        ∀ r ∈ requestsOf new, r.Method ≠ .DELETE := by
  obtain ⟨e, he⟩ := scaleReplicaSet_error_of_fails L T name 0 w hfail
  have hd := deleteReplicaSet_of_scale_error L T name w e he
  obtain ⟨new, hnew, hm⟩ := scaleReplicaSet_trace L T name 0 w
  refine ⟨e, he, by rw [hd], new, by rw [hd]; exact hnew, ?_⟩
  intro r hr
  rcases hm r hr with h | h <;> rw [h] <;> decide

/-- Witness for C1: a remote answering 500 to the `GET` of the scale document. -/
theorem deleteReplicaSet_scale_failure_witness :
    scaleStepFails sampleLib scripted "web" 0 failingScale = true ∧
      ∃ e, (scaleReplicaSet sampleLib scripted "web" 0 failingScale).1 = some e ∧
        (deleteReplicaSet sampleLib scripted "web" failingScale).1 = some e ∧
        ∃ new, (deleteReplicaSet sampleLib scripted "web" failingScale).2.trace
            = failingScale.trace ++ new ∧
          ∀ r ∈ requestsOf new, r.Method ≠ .DELETE :=
  ⟨by decide, deleteReplicaSet_scale_failure sampleLib scripted "web" failingScale (by decide)⟩

theorem getScale_memoryStore (L : Lib) (name : String) (store : String → Option String)
    (tr : List Event) (doc : String) (hdoc : store (scalePath name) = some doc) :
    getScale L memoryStore name ⟨store, tr⟩ =
      (match L.decodeScale { data := doc } with
        | .error err => .error err
        | .ok scale => .ok scale,
       ⟨store, tr ++ [.request (getScaleRequest name)]⟩) := by
  have hs : send memoryStore ⟨store, tr⟩ (getScaleRequest name) =
      (.response { StatusCode := 200, Status := "200 OK", Body := { data := doc } },
        ⟨store, tr ++ [.request (getScaleRequest name)]⟩) := by
    simp [send, memoryStore, getScaleRequest, hdoc]
  unfold getScale
  rw [hs]
  simp only []
  rw [if_neg (by decide), if_neg (by decide)]
  cases L.decodeScale { data := doc } <;> rfl

/-- C2: against the in-memory store holding a scale document for the name, and
with a JSON codec that keeps the replica count, `scaleReplicaSet(name, n)` returns
nil for every name and every `int` `n`, and the `getScale(name)` that follows
returns a document whose `Spec.Replicas` is `n`. -/
theorem scaleReplicaSet_then_getScale (L : Lib) (hL : L.ScaleRoundTrips) (name : String)
    (n : Int) (hn : -2 ^ 63 ≤ n ∧ n < 2 ^ 63) (store : String → Option String)
    (tr : List Event) (doc : String) (cur : Scale)
    (hdoc : store (scalePath name) = some doc)
    (hcur : L.decodeScale { data := doc } = .ok cur) :
    (scaleReplicaSet L memoryStore name n ⟨store, tr⟩).1 = none ∧
      ∃ d, (getScale L memoryStore name
              (scaleReplicaSet L memoryStore name n ⟨store, tr⟩).2).1 = .ok d ∧
        d.Spec.Replicas = n := by
  obtain ⟨body, d, henc, hdec, hrep⟩ :=
    hL { cur with Spec := { cur.Spec with Replicas := int64 n } }
  have hg := getScale_memoryStore L name store tr doc hdoc
  rw [hcur] at hg
  have hput : send memoryStore ⟨store, tr ++ [.request (getScaleRequest name)]⟩
      (putScaleRequest name body) =
      (.response { StatusCode := 200, Status := "200 OK", Body := { data := body } },
        ⟨Function.update store (scalePath name) (some body),
          tr ++ [.request (getScaleRequest name)] ++ [.request (putScaleRequest name body)]⟩) := by
    simp [send, memoryStore, putScaleRequest]
  have hscale : scaleReplicaSet L memoryStore name n ⟨store, tr⟩ =
      (none, ⟨Function.update store (scalePath name) (some body),
          tr ++ [.request (getScaleRequest name)] ++ [.request (putScaleRequest name body)]⟩) := by
    unfold scaleReplicaSet
    rw [hg]
    simp only [henc, hput]
    simp
  rw [hscale]
  refine ⟨rfl, d, ?_, ?_⟩
  · have := getScale_memoryStore L name (Function.update store (scalePath name) (some body))
      (tr ++ [.request (getScaleRequest name)] ++ [.request (putScaleRequest name body)])
      body (by simp)
    rw [this, hdec]
  · rw [hrep]
    exact int64_of_range n hn

/-- Witness for C2: `web` scaled from two to three replicas. -/
theorem scaleReplicaSet_then_getScale_witness :
    (scaleReplicaSet sampleLib memoryStore "web" 3 ⟨webStore, []⟩).1 = none ∧
      ∃ d, (getScale sampleLib memoryStore "web"
              (scaleReplicaSet sampleLib memoryStore "web" 3 ⟨webStore, []⟩).2).1 = .ok d ∧
        d.Spec.Replicas = 3 :=
  scaleReplicaSet_then_getScale sampleLib sampleLib_scaleRoundTrips "web" 3 (by decide)
    webStore [] "11" _ (by decide) rfl

/-- The document that `createReplicaSet` builds when nothing goes wrong, and the
caller's maps afterwards. -/
theorem buildReplicaSet_ok (L : Lib) (O : MapOrder) (h : Heap) (config : DeploymentConfig)
    (a l : Nat) (ic : String) (hA : config.Annotations = some a) (hLb : config.Labels = some l)
    (hm : L.marshalIndent (initContainers L config) = .ok ic) :
    ∃ rs, buildReplicaSet L O h config
        = (.ok rs, (h.assign a initContainersKey ic).assign l "run" config.Name) ∧
      rs.Spec.Template.Metadata.Labels
        = some ((h.assign a initContainersKey ic).assign l "run" config.Name l) ∧
      rs.Spec.Template.Metadata.Annotations
        = some ((h.assign a initContainersKey ic).assign l "run" config.Name a) ∧
      rs.Spec.Template.Spec.Containers = [mainContainer L O h config] ∧
      rs.Spec.Template.Spec.Volumes = volumes ∧
      rs.Metadata.Name = config.Name ∧
      rs.Spec.Replicas = int64 config.Replicas := by
  unfold buildReplicaSet
  simp only [hm, hA, hLb]
  exact ⟨_, rfl, rfl, rfl, rfl, rfl, rfl, rfl⟩

/-- C3: for every request whose `Labels` and `Annotations` maps are non-nil (and
with JSON encoders that do not fail), `createReplicaSet` sends exactly one request,
the `POST` of the encoded document it has built; whatever response the remote
gives to that `POST`, `createReplicaSet` returns nil exactly when the status is
201, and every other status, 200 and the other 2xx codes included, yields a
non-nil error. -/
theorem createReplicaSet_nil_iff_created {σ : Type} (L : Lib) (hL : L.Encodes) (O : MapOrder)
    (T : Transport σ) (h : Heap) (config : DeploymentConfig) (w : World σ) (resp : Response)
    (hA : config.Annotations ≠ none) (hLb : config.Labels ≠ none)
    (hresp : ∀ rs body, (buildReplicaSet L O h config).1 = .ok rs →
      L.encodeReplicaSet rs = .ok body →
      (T w.remote (postRequest body)).1 = .response resp) :
    (∃ rs body, (buildReplicaSet L O h config).1 = .ok rs ∧
        L.encodeReplicaSet rs = .ok body ∧
        requestsOf (createReplicaSet L O T h config w).2.trace
          = requestsOf w.trace ++ [postRequest body]) ∧
      ((createReplicaSet L O T h config w).1.1 = .ok () ↔ resp.StatusCode = 201) ∧
      (resp.StatusCode ≠ 201 → ∃ e, (createReplicaSet L O T h config w).1.1 = .err e) := by
  obtain ⟨a, ha⟩ := Option.ne_none_iff_exists'.mp hA
  obtain ⟨l, hl⟩ := Option.ne_none_iff_exists'.mp hLb
  obtain ⟨ic, hic⟩ := hL.1 (initContainers L config)
  obtain ⟨rs, hrs, -⟩ := buildReplicaSet_ok L O h config a l ic ha hl hic
  obtain ⟨body, hbody⟩ := hL.2 rs
  have hsend : send T w (postRequest body) =
      (.response resp, ⟨(T w.remote (postRequest body)).2,
        w.trace ++ [.request (postRequest body)]⟩) := by
    have := hresp rs body (by rw [hrs]) hbody
    exact Prod.ext (by simpa [send] using this) rfl
  have hcreate : createReplicaSet L O T h config w =
      (if resp.StatusCode ≠ 201 then
        match resp.Body.err with
        | some err =>
          ((.err err, (h.assign a initContainersKey ic).assign l "run" config.Name),
            ⟨(T w.remote (postRequest body)).2, w.trace ++ [.request (postRequest body)]⟩)
        | none =>
          ((.err (.New ("ReplicaSet: Unexpected HTTP status code" ++ resp.Status)),
              (h.assign a initContainersKey ic).assign l "run" config.Name),
            (⟨(T w.remote (postRequest body)).2,
              w.trace ++ [.request (postRequest body)]⟩ : World σ).emit (.log resp.Body.data))
      else
        ((.ok (), (h.assign a initContainersKey ic).assign l "run" config.Name),
          ⟨(T w.remote (postRequest body)).2, w.trace ++ [.request (postRequest body)]⟩)) := by
    unfold createReplicaSet
    rw [hrs]
    simp only [hbody]
    rw [hsend]
  rw [hcreate]
  refine ⟨⟨rs, body, by rw [hrs], hbody, ?_⟩, ?_, ?_⟩
  · by_cases hs : resp.StatusCode = 201
    · simp [hs, requestsOf_append, requestsOf]
    · simp only [hs, ne_eq, not_false_eq_true, if_true]
      cases resp.Body.err <;> simp [World.emit, requestsOf_append, requestsOf]
  · by_cases hs : resp.StatusCode = 201
    · simp [hs]
    · simp only [hs, ne_eq, not_false_eq_true, if_true, iff_false]
      cases resp.Body.err <;> simp
  · intro hs
    simp only [hs, ne_eq, not_false_eq_true, if_true]
    cases resp.Body.err <;> simp

/-- Witness for C3: `worker` created against the remote that answers 201 only to
the document `worker`. -/
theorem createReplicaSet_nil_iff_created_witness :
    (∃ rs body, (buildReplicaSet sampleLib storedOrder emptyHeap sampleConfig).1 = .ok rs ∧
        sampleLib.encodeReplicaSet rs = .ok body ∧
        requestsOf (createReplicaSet sampleLib storedOrder validating emptyHeap sampleConfig
            ⟨(), []⟩).2.trace = requestsOf [] ++ [postRequest body]) ∧
      ((createReplicaSet sampleLib storedOrder validating emptyHeap sampleConfig
          ⟨(), []⟩).1.1 = .ok () ↔ (201 : Int) = 201) ∧
      ((201 : Int) ≠ 201 → ∃ e, (createReplicaSet sampleLib storedOrder validating emptyHeap
          sampleConfig ⟨(), []⟩).1.1 = .err e) :=
  createReplicaSet_nil_iff_created sampleLib sampleLib_encodes storedOrder validating emptyHeap
    sampleConfig ⟨(), []⟩
    { StatusCode := 201, Status := "201 Created", Body := { data := "" } }
    (by decide) (by decide)
    (fun rs body hrs hbody => by
      have hname : rs.Metadata.Name = "worker" := by
        have hrs' : Outcome.ok
            (α := ReplicaSet) _ = Outcome.ok rs := hrs
        simp only [Outcome.ok.injEq] at hrs'
        rw [← hrs']
        rfl
      have hb : body = "worker" := by
        have hbody' : (Except.ok rs.Metadata.Name : Except Error String) = .ok body := hbody
        simp only [Except.ok.injEq] at hbody'
        rw [← hbody', hname]
      subst hb
      rfl)

/-- Counterexample to C4: a 201 whose body decodes is a 2xx answer, yet `getScale`
and `getReplicaSet` both return an error. -/
theorem get_fails_on_201 :
    sampleLib.decodeScale { data := "11" }
        = .ok { ApiVersion := "", Kind := "", Name := "", Spec := { Replicas := 2 } } ∧
      (getScale sampleLib scripted "web" (answering 201 "201 Created")).1
        = .error (.New "Get scale error non 200 reponse: 201 Created") ∧
      (∃ rs, sampleLib.decodeReplicaSet { data := "11" } = .ok rs) ∧
      (getReplicaSet sampleLib scripted "web" (answering 201 "201 Created")).1
        = .error (.New "Get deployment error non 200 reponse: 201 Created") :=
  ⟨rfl, rfl, ⟨_, rfl⟩, rfl⟩

/-- C4, amended: when the cluster answers the `GET` of `getScale` (and of
`getReplicaSet`) with a response, a 404 gives `ErrNotExist`; a 200 whose body
decodes gives the decoded document; every other status, the other 2xx codes
included, gives an error made by `errors.New`, which is not `ErrNotExist`. -/
theorem get_status_classes {σ : Type} (L : Lib) (T : Transport σ) (name : String) (w : World σ)
    (resp resp' : Response)
    (hscale : (T w.remote (getScaleRequest name)).1 = .response resp)
    (hrs : (T w.remote (getReplicaSetRequest name)).1 = .response resp') :
    ((resp.StatusCode = 404 → (getScale L T name w).1 = .error .ErrNotExist) ∧
      (resp.StatusCode = 200 → ∀ d, L.decodeScale resp.Body = .ok d →
        (getScale L T name w).1 = .ok d) ∧
      (resp.StatusCode ≠ 404 → resp.StatusCode ≠ 200 →
        ∃ e, (getScale L T name w).1 = .error e ∧ e ≠ .ErrNotExist ∧
          e = .New ("Get scale error non 200 reponse: " ++ resp.Status))) ∧
    ((resp'.StatusCode = 404 → (getReplicaSet L T name w).1 = .error .ErrNotExist) ∧
      (resp'.StatusCode = 200 → ∀ d, L.decodeReplicaSet resp'.Body = .ok d →
        (getReplicaSet L T name w).1 = .ok d) ∧
      (resp'.StatusCode ≠ 404 → resp'.StatusCode ≠ 200 →
        ∃ e, (getReplicaSet L T name w).1 = .error e ∧ e ≠ .ErrNotExist ∧
          e = .New ("Get deployment error non 200 reponse: " ++ resp'.Status))) := by
  have h1 : send T w (getScaleRequest name) =
      (.response resp, (send T w (getScaleRequest name)).2) :=
    Prod.ext (by simpa [send] using hscale) rfl
  have h2 : send T w (getReplicaSetRequest name) =
      (.response resp', (send T w (getReplicaSetRequest name)).2) :=
    Prod.ext (by simpa [send] using hrs) rfl
  refine ⟨⟨?_, ?_, ?_⟩, ?_, ?_, ?_⟩
  · intro hs
    unfold getScale
    rw [h1]
    simp [hs]
  · intro hs d hd
    unfold getScale
    rw [h1]
    simp [hs, hd]
  · intro hs hs'
    unfold getScale
    rw [h1]
    simp [hs, hs']
  · intro hs
    unfold getReplicaSet
    rw [h2]
    simp [hs]
  · intro hs d hd
    unfold getReplicaSet
    rw [h2]
    simp [hs, hd]
  · intro hs hs'
    unfold getReplicaSet
    rw [h2]
    simp [hs, hs']

/-- Witness for C4: a remote answering 200 with a body that decodes. -/
theorem get_status_classes_witness :
    (((200 : Int) = 404 →
        (getScale sampleLib scripted "web" (answering 200 "200 OK")).1 = .error .ErrNotExist) ∧
      ((200 : Int) = 200 → ∀ d, sampleLib.decodeScale { data := "11" } = .ok d →
        (getScale sampleLib scripted "web" (answering 200 "200 OK")).1 = .ok d) ∧
      ((200 : Int) ≠ 404 → (200 : Int) ≠ 200 →
        ∃ e, (getScale sampleLib scripted "web" (answering 200 "200 OK")).1 = .error e ∧
          e ≠ .ErrNotExist ∧ e = .New ("Get scale error non 200 reponse: " ++ "200 OK"))) ∧
    (((200 : Int) = 404 →
        (getReplicaSet sampleLib scripted "web" (answering 200 "200 OK")).1
          = .error .ErrNotExist) ∧
      ((200 : Int) = 200 → ∀ d, sampleLib.decodeReplicaSet { data := "11" } = .ok d →
        (getReplicaSet sampleLib scripted "web" (answering 200 "200 OK")).1 = .ok d) ∧
      ((200 : Int) ≠ 404 → (200 : Int) ≠ 200 →
        ∃ e, (getReplicaSet sampleLib scripted "web" (answering 200 "200 OK")).1 = .error e ∧
          e ≠ .ErrNotExist ∧ e = .New ("Get deployment error non 200 reponse: " ++ "200 OK"))) :=
  get_status_classes sampleLib scripted "web" (answering 200 "200 OK")
    { StatusCode := 200, Status := "200 OK", Body := { data := "11" } }
    { StatusCode := 200, Status := "200 OK", Body := { data := "11" } } rfl rfl

theorem logsLoop_panicked {σ : Type} (T : Transport σ) (request : Request) (n : Nat)
    (s : Follower σ) (hs : s.panicked = true) : logsLoop T request n s = s := by
  cases n with
  | zero => rfl
  | succ k => simp [logsLoop, hs]

/-- C5, evaluated on the code: with a transport that fails twice and then answers 200, the
loop of `getLogs` sends one request, sleeps 10 seconds, logs the error and then
panics on `resp.StatusCode` of the nil response; however many passes it is given,
no second request is sent and nothing reaches the buffer. -/
theorem getLogs_panics_after_transport_error :
    ∀ n : Nat,
      (getLogs scripted "web-1" "default" (n + 1) flakyLogs).panicked = true ∧
      (getLogs scripted "web-1" "default" (n + 1) flakyLogs).world.trace
        = [.request (getLogsRequest "web-1" "default"), .sleep 10, .log refused.text] ∧
      requestsOf (getLogs scripted "web-1" "default" (n + 1) flakyLogs).world.trace
        = [getLogsRequest "web-1" "default"] ∧
      (getLogs scripted "web-1" "default" (n + 1) flakyLogs).b = "" := by
  intro n
  have h1 : getLogs scripted "web-1" "default" (n + 1) flakyLogs
      = logsLoop scripted (getLogsRequest "web-1" "default") n
          (logsPass scripted (getLogsRequest "web-1" "default") ⟨flakyLogs, "", false⟩) := by
    simp [getLogs, logsLoop]
  rw [h1, logsLoop_panicked _ _ _ _ rfl]
  exact ⟨rfl, rfl, rfl, rfl⟩

theorem Heap.assign_same (h : Heap) (a : Nat) (k v : String) :
    h.assign a k v a = (h a).insert k v := by
  simp [Heap.assign]

theorem Heap.assign_other (h : Heap) (a b : Nat) (k v : String) (hb : b ≠ a) :
    h.assign a k v b = h b := by
  simp [Heap.assign, hb]

theorem lookup_insert_ite (m : MapData) (k v k' : String) :
    (m.insert k v).lookup k' = if k' = k then some v else m.lookup k' := by
  by_cases hk : k' = k
  · subst hk
    simp [AList.lookup_insert]
  · simp [hk, AList.lookup_insert_ne hk]

theorem len_insert_pos (m : MapData) (k v : String) : GoMap.len (some (m.insert k v)) > 0 := by
  simp [GoMap.len, AList.insert_entries]

theorem mainContainer_Env (L : Lib) (O : MapOrder) (h : Heap) (config : DeploymentConfig)
    (m : MapData) (hm : h.read config.Env = some m) (hne : GoMap.len (h.read config.Env) > 0) :
    (mainContainer L O h config).Env
      = (O.order m).map (fun e => { Name := e.1, Value := e.2 }) := by
  rw [hm] at hne
  unfold mainContainer envOf
  simp only [hm, if_pos hne, List.nil_append]

/-- The keys and values of a resource block built by two conditional writes. -/
theorem resourceList_spec (cpu memory : String) (m : MapData)
    (hm : m = if memory ≠ "" then
        (if cpu ≠ "" then (∅ : MapData).insert "cpu" cpu else ∅).insert "memory" memory
      else (if cpu ≠ "" then (∅ : MapData).insert "cpu" cpu else ∅)) :
    (GoMap.len (some m) > 0 ↔ ¬ (cpu = "" ∧ memory = "")) ∧
      (m.lookup "cpu" = if cpu ≠ "" then some cpu else none) ∧
      (m.lookup "memory" = if memory ≠ "" then some memory else none) ∧
      ∀ k, k ≠ "cpu" → k ≠ "memory" → m.lookup k = none := by
  have hcm : ("cpu" : String) ≠ "memory" := by decide
  have hmc : ("memory" : String) ≠ "cpu" := by decide
  have h0 : GoMap.len (some (∅ : MapData)) = 0 := rfl
  subst hm
  by_cases h1 : cpu = "" <;> by_cases h2 : memory = "" <;>
    simp only [h1, h2, ne_eq, not_true_eq_false, not_false_eq_true, if_true, if_false,
      lookup_insert_ite, AList.lookup_empty, hcm, hmc, len_insert_pos, h0, and_self, and_true,
      true_and, and_false, false_and, gt_iff_lt, lt_self_iff_false, true_iff, iff_true,
      iff_false, false_iff] <;>
    (try intro k hk hk') <;> simp_all

theorem buildReplicaSet_Containers (L : Lib) (O : MapOrder) (h : Heap)
    (config : DeploymentConfig) (rs : ReplicaSet)
    (hrs : (buildReplicaSet L O h config).1 = .ok rs) :
    rs.Spec.Template.Spec.Containers = [mainContainer L O h config] := by
  unfold buildReplicaSet at hrs
  cases hm : L.marshalIndent (initContainers L config) with
  | error err => simp [hm] at hrs
  | ok ic =>
    cases hA : config.Annotations with
    | none => simp [hm, hA] at hrs
    | some a =>
      cases hLb : config.Labels with
      | none => simp [hm, hA, hLb] at hrs
      | some l =>
        simp only [hm, hA, hLb, Outcome.ok.injEq] at hrs
        rw [← hrs]

/-- Counterexample to C6: with a non-nil `Annotations` map and a nil `Labels` map
the write `config.Labels["run"]` panics, and `createReplicaSet` ends there without
sending a request. -/
theorem buildReplicaSet_nil_Labels_panics :
    nilLabelsConfig.Annotations ≠ none ∧
      (buildReplicaSet sampleLib storedOrder emptyHeap nilLabelsConfig).1
        = .panic "assignment to entry in nil map" ∧
      (createReplicaSet sampleLib storedOrder scripted emptyHeap nilLabelsConfig
          (answering 201 "201 Created")).1.1 = .panic "assignment to entry in nil map" ∧
      (createReplicaSet sampleLib storedOrder scripted emptyHeap nilLabelsConfig
          (answering 201 "201 Created")).2.trace = [] :=
  ⟨by decide, rfl, rfl, rfl⟩

/-- C6, amended: given that `json.MarshalIndent` succeeds on the init-container
list, building the document completes, without a panic or an error, for every
request whose `Annotations` and `Labels` maps are both non-nil, whatever the other
fields are; and it panics as soon as one of the two maps is nil. -/
theorem buildReplicaSet_total (L : Lib) (O : MapOrder) (h : Heap) (config : DeploymentConfig)
    (hm : ∃ ic, L.marshalIndent (initContainers L config) = .ok ic) :
    (config.Annotations ≠ none → config.Labels ≠ none →
        ∃ rs, (buildReplicaSet L O h config).1 = .ok rs) ∧
      (config.Annotations = none ∨ config.Labels = none →
        (buildReplicaSet L O h config).1 = .panic "assignment to entry in nil map") := by
  obtain ⟨ic, hic⟩ := hm
  constructor
  · intro hA hLb
    obtain ⟨a, ha⟩ := Option.ne_none_iff_exists'.mp hA
    obtain ⟨l, hl⟩ := Option.ne_none_iff_exists'.mp hLb
    obtain ⟨rs, hrs, -⟩ := buildReplicaSet_ok L O h config a l ic ha hl hic
    exact ⟨rs, by rw [hrs]⟩
  · intro hnil
    unfold buildReplicaSet
    simp only [hic]
    cases hA : config.Annotations with
    | none => rfl
    | some a =>
      cases hLb : config.Labels with
      | none => rfl
      | some l => simp [hA, hLb] at hnil

/-- Witness for C6: the sample request, whose two maps are non-nil. -/
theorem buildReplicaSet_total_witness :
    (sampleConfig.Annotations ≠ none → sampleConfig.Labels ≠ none →
        ∃ rs, (buildReplicaSet sampleLib storedOrder emptyHeap sampleConfig).1 = .ok rs) ∧
      (sampleConfig.Annotations = none ∨ sampleConfig.Labels = none →
        (buildReplicaSet sampleLib storedOrder emptyHeap sampleConfig).1
          = .panic "assignment to entry in nil map") :=
  buildReplicaSet_total sampleLib storedOrder emptyHeap sampleConfig ⟨_, rfl⟩

/-- C7: for every request with non-nil `Labels` and `Annotations` maps (and given
that `json.MarshalIndent` succeeds), the list serialised into the pod-template
annotation `pod.alpha.kubernetes.io/init-containers` is `[install, configure]`, of
length 2 and in that order; with `P` the join of `/opt/bin` and the name, the
install command is `wget -O P BinaryURL`, the configure command is `chmod +x P`,
both mount `bin` at `/opt/bin` as the main container does, and the command of the
main container is `[P]`. -/
theorem initContainers_install_then_configure (L : Lib) (O : MapOrder) (h : Heap)
    (config : DeploymentConfig) (hA : config.Annotations ≠ none) (hLb : config.Labels ≠ none)
    (hm : ∃ ic, L.marshalIndent (initContainers L config) = .ok ic) :
    ∃ rs ic install configure main annotations,
      (buildReplicaSet L O h config).1 = .ok rs ∧
      L.marshalIndent [install, configure] = .ok ic ∧
      rs.Spec.Template.Metadata.Annotations = some annotations ∧
      annotations.lookup "pod.alpha.kubernetes.io/init-containers" = some ic ∧
      [install, configure].length = 2 ∧
      install.Name = "install" ∧ configure.Name = "configure" ∧
      install.Command
        = ["wget", "-O", L.filepathJoin "/opt/bin" config.Name, config.BinaryURL] ∧
      configure.Command = ["chmod", "+x", L.filepathJoin "/opt/bin" config.Name] ∧
      rs.Spec.Template.Spec.Containers = [main] ∧
      main.Command = [L.filepathJoin "/opt/bin" config.Name] ∧
      main.VolumeMounts = [{ Name := "bin", MountPath := "/opt/bin" }] ∧
      install.VolumeMounts = main.VolumeMounts ∧
      configure.VolumeMounts = main.VolumeMounts := by
  obtain ⟨ic, hic⟩ := hm
  obtain ⟨a, ha⟩ := Option.ne_none_iff_exists'.mp hA
  obtain ⟨l, hl⟩ := Option.ne_none_iff_exists'.mp hLb
  obtain ⟨rs, hrs, -, hann, hcs, -⟩ := buildReplicaSet_ok L O h config a l ic ha hl hic
  have hkey : initContainersKey ≠ "run" := by decide
  refine ⟨rs, ic, _, _, mainContainer L O h config, _, by rw [hrs], hic, hann, ?_, rfl, rfl, rfl,
    rfl, rfl, hcs, rfl, rfl, rfl, rfl⟩
  by_cases hla : a = l
  · subst hla
    rw [Heap.assign_same, lookup_insert_ite, Heap.assign_same, lookup_insert_ite]
    simp [initContainersKey]
  · rw [Heap.assign_other _ _ _ _ _ hla, Heap.assign_same, lookup_insert_ite]
    simp [initContainersKey]

/-- Witness for C7: the sample request. -/
theorem initContainers_install_then_configure_witness :
    ∃ rs ic install configure main annotations,
      (buildReplicaSet sampleLib storedOrder emptyHeap sampleConfig).1 = .ok rs ∧
      sampleLib.marshalIndent [install, configure] = .ok ic ∧
      rs.Spec.Template.Metadata.Annotations = some annotations ∧
      annotations.lookup "pod.alpha.kubernetes.io/init-containers" = some ic ∧
      [install, configure].length = 2 ∧
      install.Name = "install" ∧ configure.Name = "configure" ∧
      install.Command
        = ["wget", "-O", sampleLib.filepathJoin "/opt/bin" sampleConfig.Name,
            sampleConfig.BinaryURL] ∧
      configure.Command = ["chmod", "+x", sampleLib.filepathJoin "/opt/bin" sampleConfig.Name] ∧
      rs.Spec.Template.Spec.Containers = [main] ∧
      main.Command = [sampleLib.filepathJoin "/opt/bin" sampleConfig.Name] ∧
      main.VolumeMounts = [{ Name := "bin", MountPath := "/opt/bin" }] ∧
      install.VolumeMounts = main.VolumeMounts ∧
      configure.VolumeMounts = main.VolumeMounts :=
  initContainers_install_then_configure sampleLib storedOrder emptyHeap sampleConfig
    (by decide) (by decide) ⟨_, rfl⟩

/-- Counterexample to C8: when the caller gives one map object as both `Labels` and
`Annotations`, holding only `app = web`, the pod-template labels of the built
document also carry the serialised init-container list under the annotation key, a
key other than `run` that the caller's labels do not have. -/
theorem labels_of_shared_map_gain_annotation :
    sharedMapConfig.Labels ≠ none ∧ sharedMapConfig.Annotations ≠ none ∧
      appHeap.read sharedMapConfig.Labels = some (AList.singleton "app" "web") ∧
      (AList.singleton "app" "web" : MapData).lookup "pod.alpha.kubernetes.io/init-containers"
        = none ∧
      ∃ rs labels ic,
        (buildReplicaSet sampleLib storedOrder appHeap sharedMapConfig).1 = .ok rs ∧
        rs.Spec.Template.Metadata.Labels = some labels ∧
        sampleLib.marshalIndent (initContainers sampleLib sharedMapConfig) = .ok ic ∧
        labels.lookup "pod.alpha.kubernetes.io/init-containers" = some ic :=
  ⟨by decide, by decide, rfl, by decide, _, _, _, rfl, rfl, rfl, by decide⟩

/-- C8, amended: for every request with non-nil `Labels` and `Annotations` maps
(and given that `json.MarshalIndent` succeeds), the pod-template labels of the
built document have `run` set to the name, whatever the caller had there.  When the
two maps are distinct map objects, every other key is as the caller supplied it.
When they are one and the same map object, the labels carry in addition the
init-container annotation, and every key other than these two is as the caller
supplied it. -/
theorem labels_run_is_name (L : Lib) (O : MapOrder) (h : Heap) (config : DeploymentConfig)
    (a l : Nat) (hA : config.Annotations = some a) (hLb : config.Labels = some l)
    (hm : ∃ ic, L.marshalIndent (initContainers L config) = .ok ic) :
    ∃ rs labels, (buildReplicaSet L O h config).1 = .ok rs ∧
      rs.Spec.Template.Metadata.Labels = some labels ∧
      labels.lookup "run" = some config.Name ∧
      (l ≠ a → ∀ k, k ≠ "run" → labels.lookup k = (h l).lookup k) ∧
      (l = a →
        (∀ k, k ≠ "run" → k ≠ "pod.alpha.kubernetes.io/init-containers" →
          labels.lookup k = (h l).lookup k) ∧
        ∃ ic, L.marshalIndent (initContainers L config) = .ok ic ∧
          labels.lookup "pod.alpha.kubernetes.io/init-containers" = some ic) := by
  obtain ⟨ic, hic⟩ := hm
  obtain ⟨rs, hrs, hlab, -⟩ := buildReplicaSet_ok L O h config a l ic hA hLb hic
  have hkey : initContainersKey ≠ "run" := by decide
  refine ⟨rs, _, by rw [hrs], hlab, ?_, ?_, ?_⟩
  · rw [Heap.assign_same, lookup_insert_ite, if_pos rfl]
  · intro hla k hk
    rw [Heap.assign_same, lookup_insert_ite, if_neg hk, Heap.assign_other _ _ _ _ _ hla]
  · intro hla
    subst hla
    refine ⟨?_, ic, hic, ?_⟩
    · intro k hk hk'
      rw [Heap.assign_same, lookup_insert_ite, if_neg hk, Heap.assign_same, lookup_insert_ite,
        if_neg (by simpa [initContainersKey] using hk')]
    · rw [Heap.assign_same, lookup_insert_ite, Heap.assign_same, lookup_insert_ite]
      simp [initContainersKey]

/-- Witness for C8: the sample request, whose two maps are distinct map objects. -/
theorem labels_run_is_name_witness :
    ∃ rs labels, (buildReplicaSet sampleLib storedOrder appHeap sampleConfig).1 = .ok rs ∧
      rs.Spec.Template.Metadata.Labels = some labels ∧
      labels.lookup "run" = some sampleConfig.Name ∧
      ((0 : Nat) ≠ 1 → ∀ k, k ≠ "run" → labels.lookup k = (appHeap 0).lookup k) ∧
      ((0 : Nat) = 1 →
        (∀ k, k ≠ "run" → k ≠ "pod.alpha.kubernetes.io/init-containers" →
          labels.lookup k = (appHeap 0).lookup k) ∧
        ∃ ic, sampleLib.marshalIndent (initContainers sampleLib sampleConfig) = .ok ic ∧
          labels.lookup "pod.alpha.kubernetes.io/init-containers" = some ic) :=
  labels_run_is_name sampleLib storedOrder appHeap sampleConfig 1 0 rfl rfl ⟨_, rfl⟩

/-- C9: for every request, the `Limits` of the main container is the nil map
exactly when `cpuLimit` and `memoryLimit` are both empty; when it is set it is not
empty, it has `cpu` exactly when `cpuLimit` is non-empty and `memory` exactly when
`memoryLimit` is non-empty, each with the caller's string, and no other key.  The
same holds for `Requests` with `cpuRequest` and `memoryRequest`.  The container in
question is the one of the built document. -/
theorem resources_follow_set_fields (L : Lib) (O : MapOrder) (h : Heap)
    (config : DeploymentConfig) :
    (((mainContainer L O h config).Resources.Limits = none ↔
        config.cpuLimit = "" ∧ config.memoryLimit = "") ∧
      ∀ m, (mainContainer L O h config).Resources.Limits = some m →
        m.entries ≠ [] ∧
        (m.lookup "cpu" = if config.cpuLimit ≠ "" then some config.cpuLimit else none) ∧
        (m.lookup "memory" = if config.memoryLimit ≠ "" then some config.memoryLimit else none) ∧
        ∀ k, k ≠ "cpu" → k ≠ "memory" → m.lookup k = none) ∧
    (((mainContainer L O h config).Resources.Requests = none ↔
        config.cpuRequest = "" ∧ config.memoryRequest = "") ∧
      ∀ m, (mainContainer L O h config).Resources.Requests = some m →
        m.entries ≠ [] ∧
        (m.lookup "cpu" = if config.cpuRequest ≠ "" then some config.cpuRequest else none) ∧
        (m.lookup "memory"
          = if config.memoryRequest ≠ "" then some config.memoryRequest else none) ∧
        ∀ k, k ≠ "cpu" → k ≠ "memory" → m.lookup k = none) ∧
    (∀ rs, (buildReplicaSet L O h config).1 = .ok rs →
      rs.Spec.Template.Spec.Containers = [mainContainer L O h config]) := by
  have key : ∀ (cpu memory : String) (m : MapData),
      m = (if memory ≠ "" then
          (if cpu ≠ "" then (∅ : MapData).insert "cpu" cpu else ∅).insert "memory" memory
        else (if cpu ≠ "" then (∅ : MapData).insert "cpu" cpu else ∅)) →
      (((if GoMap.len (some m) > 0 then some m else none) = none ↔ cpu = "" ∧ memory = "") ∧
        ∀ m', (if GoMap.len (some m) > 0 then some m else none) = some m' →
          m'.entries ≠ [] ∧
          (m'.lookup "cpu" = if cpu ≠ "" then some cpu else none) ∧
          (m'.lookup "memory" = if memory ≠ "" then some memory else none) ∧
          ∀ k, k ≠ "cpu" → k ≠ "memory" → m'.lookup k = none) := by
    intro cpu memory m hm
    obtain ⟨hlen, hcpu, hmem, hrest⟩ := resourceList_spec cpu memory m hm
    by_cases hpos : GoMap.len (some m) > 0
    · rw [if_pos hpos]
      refine ⟨by simpa using hlen.mp hpos, ?_⟩
      intro m' hm'
      simp only [Option.some.injEq] at hm'
      subst hm'
      refine ⟨?_, hcpu, hmem, hrest⟩
      intro he
      simp [GoMap.len, he] at hpos
    · rw [if_neg hpos]
      refine ⟨?_, by simp⟩
      have := not_not.mp (mt hlen.mpr hpos)
      simpa using this
  exact ⟨key config.cpuLimit config.memoryLimit (resourceLimits config) rfl,
    key config.cpuRequest config.memoryRequest (resourceRequests config) rfl,
    fun rs hrs => buildReplicaSet_Containers L O h config rs hrs⟩

/-- Counterexample to C10: two builds of the same request, whose `Env` holds
`A = 1` and `B = 2`, under two iteration orders of the `range` loop yield the pairs
in two different orders. -/
theorem env_order_differs_between_builds :
    (mainContainer sampleLib storedOrder envHeap envConfig).Env
        = [{ Name := "B", Value := "2" }, { Name := "A", Value := "1" }] ∧
      (mainContainer sampleLib reverseOrder envHeap envConfig).Env
        = [{ Name := "A", Value := "1" }, { Name := "B", Value := "2" }] ∧
      (mainContainer sampleLib storedOrder envHeap envConfig).Env
        ≠ (mainContainer sampleLib reverseOrder envHeap envConfig).Env := by
  refine ⟨by decide, by decide, by decide⟩

/-- C10, amended: for every request with a non-empty `Env` map, the `Env` of the
main container is the list of the map's entries in the order in which the `range`
loop visits them: it has exactly one pair for each entry of the map, and two builds
of the same request yield the same pairs up to order. -/
theorem env_one_pair_per_entry (L : Lib) (O O' : MapOrder) (h : Heap)
    (config : DeploymentConfig) (m : MapData) (hm : h.read config.Env = some m)
    (hne : GoMap.len (h.read config.Env) > 0) :
    (mainContainer L O h config).Env
        = (O.order m).map (fun e => { Name := e.1, Value := e.2 }) ∧
      ((mainContainer L O h config).Env).Perm
        (m.entries.map (fun e => { Name := e.1, Value := e.2 })) ∧
      ((mainContainer L O h config).Env).length = GoMap.len (h.read config.Env) ∧
      ((mainContainer L O h config).Env).Perm ((mainContainer L O' h config).Env) := by
  have e1 := mainContainer_Env L O h config m hm hne
  have e2 := mainContainer_Env L O' h config m hm hne
  have p1 := (O.perm m).map (fun e : Sigma fun _ : String => String =>
    ({ Name := e.1, Value := e.2 } : EnvVar))
  have p2 := (O'.perm m).map (fun e : Sigma fun _ : String => String =>
    ({ Name := e.1, Value := e.2 } : EnvVar))
  refine ⟨e1, ?_, ?_, ?_⟩
  · rw [e1]; exact p1
  · rw [e1, hm]
    simpa [GoMap.len] using (O.perm m).length_eq
  · rw [e1, e2]
    exact p1.trans p2.symm

/-- Witness for C10: the request whose `Env` holds `A = 1` and `B = 2`. -/
theorem env_one_pair_per_entry_witness :
    (mainContainer sampleLib storedOrder envHeap envConfig).Env
        = (storedOrder.order (envHeap 2)).map (fun e => { Name := e.1, Value := e.2 }) ∧
      ((mainContainer sampleLib storedOrder envHeap envConfig).Env).Perm
        ((envHeap 2).entries.map (fun e => { Name := e.1, Value := e.2 })) ∧
      ((mainContainer sampleLib storedOrder envHeap envConfig).Env).length
        = GoMap.len (envHeap.read envConfig.Env) ∧
      ((mainContainer sampleLib storedOrder envHeap envConfig).Env).Perm
        ((mainContainer sampleLib reverseOrder envHeap envConfig).Env) :=
  env_one_pair_per_entry sampleLib storedOrder reverseOrder envHeap envConfig (envHeap 2) rfl
    (by decide)

end Kargo
